import Mathlib

/-!
Shallow embedding of the libp2p fetch protocol service
(`src/fetch/index.ts`): the prefix-based lookup registry, the outbound
`fetch` flow, the inbound `handleMessage` flow, and the start/stop
lifecycle. Byte blobs (`Uint8Array`) are modelled as `List Nat`; the
JavaScript `Map` backing the registry is modelled as an insertion-ordered
association list; JavaScript function reference identity (`===`) is
modelled by a numeric `ref` field on resolvers; thrown JavaScript errors
are modelled with `Except`.
-/

/-- A byte blob (`Uint8Array`), one `Nat` per byte. -/
abbrev Bytes := List Nat

/-- A registered lookup callback (`LookupFunction`): `ref` models the
JavaScript function object's reference identity (compared with `===` /
`!==` in `unregisterLookupFunction`); `fn` is the behaviour, returning
`some` value, `none` for an absent value, or `Except.error` when the
callback throws. -/
structure LookupFunction where
  ref : Nat
  fn : String → Except String (Option Bytes)

/-- The `lookupFunctions` map: a JavaScript `Map<string, LookupFunction>`
holds at most one entry per key and iterates keys in insertion order, so
it is modelled as an association list in insertion order. -/
abbrev Registry := List (String × LookupFunction)

/-- Models `Map.prototype.has`. -/
def mapHas (m : Registry) (k : String) : Bool :=
  m.any (fun e => e.1 == k)

/-- Models `Map.prototype.get` (`none` models `undefined`). -/
def mapGet (m : Registry) (k : String) : Option LookupFunction :=
  (m.find? (fun e => e.1 == k)).map (fun e => e.2)

/-- Models `Map.prototype.set`: updates the entry in place when the key is
present, otherwise appends a new entry (insertion order). -/
def mapSet : Registry → String → LookupFunction → Registry
  | [], k, v => [(k, v)]
  | e :: m, k, v => if e.1 == k then (k, v) :: m else e :: mapSet m k v

/-- Models `Map.prototype.delete`: removes the entry with the given key (a `Map`
holds at most one such entry). -/
def mapDelete : Registry → String → Registry
  | [], _ => []
  | e :: m, k => if e.1 == k then m else e :: mapDelete m k

/-- Models `Map.prototype.keys()`: the keys in insertion order. -/
def mapKeys (m : Registry) : List String :=
  m.map (fun e => e.1)

/-- The `Map` representation invariant: no key occurs twice. -/
def nodupKeys : Registry → Bool
  | [] => true
  | e :: m => !(mapHas m e.1) && nodupKeys m

/-- Models `String.prototype.startsWith`: character-wise prefix test. -/
def strStartsWith (s pat : String) : Bool :=
  pat.data.isPrefixOf s.data

/-- The wire `FetchRequest` message: a single `identifier` field. -/
structure FetchRequest where
  identifier : String

/-- The `FetchResponse.StatusCode.OK` enum value. -/
def StatusCode.OK : Nat := 0

/-- The `FetchResponse.StatusCode.NOT_FOUND` enum value. -/
def StatusCode.NOT_FOUND : Nat := 1

/-- The `FetchResponse.StatusCode.ERROR` enum value. -/
def StatusCode.ERROR : Nat := 2

/-- The wire `FetchResponse` message: a status code (kept as a raw `Nat`,
since a decoded protobuf enum may carry an unrecognised value) and a data
blob. -/
structure FetchResponse where
  status : Nat
  data : Bytes
  deriving DecidableEq, Repr

/-- The error codes attached with `errCode` (from `../errors.js`), each
carrying the `Error` message. `ABORT_ERR` stands for a cancellation error
surfaced by `abortable-iterator`; `CONNECTION_FAILED` for an opaque
connectivity error from the connection manager. -/
inductive FetchError where
  | ERR_INVALID_MESSAGE (msg : String)
  | ERR_INVALID_PARAMETERS (msg : String)
  | ERR_KEY_ALREADY_EXISTS (msg : String)
  | ABORT_ERR (msg : String)
  | CONNECTION_FAILED (msg : String)
  deriving DecidableEq, Repr

/-- The UTF-8 encoding of one code point (the standard 1-to-4-byte scheme);
models the platform `TextEncoder` byte layout. -/
def utf8EncodeChar (c : Nat) : Bytes :=
  if c < 0x80 then [c]
  else if c < 0x800 then
    [0xC0 + c / 64, 0x80 + c % 64]
  else if c < 0x10000 then
    [0xE0 + c / 4096, 0x80 + (c / 64) % 64, 0x80 + c % 64]
  else
    [0xF0 + c / 262144, 0x80 + (c / 4096) % 64, 0x80 + (c / 64) % 64, 0x80 + c % 64]

/-- Models `(new TextEncoder()).encode(s)`: the UTF-8 bytes of `s`. -/
def utf8Encode (s : String) : Bytes :=
  (s.data.map (fun c => utf8EncodeChar c.toNat)).flatten

/-- The U+FFFD replacement character emitted by `TextDecoder` on a
truncated sequence. -/
def replacementChar : Char := Char.ofNat 0xFFFD

/-- The UTF-8 decoding of a byte list into code points; models the platform
`TextDecoder` on well-formed input. -/
def utf8DecodeChars : Bytes → List Char
  | [] => []
  | b1 :: rest =>
    if b1 < 0x80 then Char.ofNat b1 :: utf8DecodeChars rest
    else if b1 < 0xC0 then replacementChar :: utf8DecodeChars rest
    else if b1 < 0xE0 then
      match rest with
      | b2 :: rest2 => Char.ofNat ((b1 % 0x20) * 64 + b2 % 64) :: utf8DecodeChars rest2
      | [] => [replacementChar]
    else if b1 < 0xF0 then
      match rest with
      | b2 :: b3 :: rest3 =>
        Char.ofNat ((b1 % 0x10) * 4096 + (b2 % 64) * 64 + b3 % 64) :: utf8DecodeChars rest3
      | _ => [replacementChar]
    else
      match rest with
      | b2 :: b3 :: b4 :: rest4 =>
        Char.ofNat ((b1 % 8) * 262144 + (b2 % 64) * 4096 + (b3 % 64) * 64 + b4 % 64)
          :: utf8DecodeChars rest4
      | _ => [replacementChar]

/-- Models `(new TextDecoder()).decode(bs)`. -/
def utf8Decode (bs : Bytes) : String :=
  String.mk (utf8DecodeChars bs)

/-- The loop body of `_getLookupFunction`: iterate over
`lookupFunctions.keys()` and, at the first key that is a prefix of `key`
(`key.startsWith(prefix)`), return `lookupFunctions.get(prefix)`; falling
off the loop returns `undefined` (`none`). -/
def getLookupFunctionLoop (m : Registry) (key : String) : List String → Option LookupFunction
  | [] => none
  | pre :: rest =>
    if strStartsWith key pre then mapGet m pre
    else getLookupFunctionLoop m key rest

/-- Models `_getLookupFunction(key)` from `src/fetch/index.ts`. -/
def getLookupFunction (m : Registry) (key : String) : Option LookupFunction :=
  getLookupFunctionLoop m key (mapKeys m)

/-- Following the spec's words, for comparison with `getLookupFunction`:
"scans registered prefixes in registration (insertion) order and returns
the resolver for the first prefix that is a literal prefix of `key`
(byte/character-wise `startsWith`). Returns absent if no prefix
matches." -/
def resolveSpec (m : Registry) (key : String) : Option LookupFunction :=
  (m.find? (fun e => strStartsWith key e.1)).map (fun e => e.2)

/-- Models `registerLookupFunction(prefix, lookup)`. A thrown duplicate-key error
aborts before the `set`, so the registry handed back next to the error is
the input unchanged. -/
def registerLookupFunction (m : Registry) (pre : String) (lookup : LookupFunction) :
    Option FetchError × Registry :=
  if mapHas m pre then
    (some (FetchError.ERR_KEY_ALREADY_EXISTS
      ("Fetch protocol handler for key prefix \x27" ++ pre ++ "\x27 already registered")), m)
  else
    (none, mapSet m pre lookup)

/-- Models `unregisterLookupFunction(prefix, lookup?)`: when a `lookup` argument
is supplied and is not reference-identical (`!==`) to
`lookupFunctions.get(prefix)` the function returns early without
deleting; otherwise it deletes the entry. -/
def unregisterLookupFunction (m : Registry) (pre : String) (lookup : Option LookupFunction) :
    Registry :=
  match lookup with
  | some l =>
    match mapGet m pre with
    | some existingLookup =>
      if existingLookup.ref == l.ref then mapDelete m pre else m
    | none => m
  | none => mapDelete m pre

/-- The response-construction step of `handleMessage` (lines 182-198): for
a decoded request, dispatch through `_getLookupFunction`. No matching
resolver yields an `ERROR` response carrying the UTF-8 message; a matched
resolver that returns data yields `OK`; one that returns `null` yields
`NOT_FOUND` with an empty blob; one that throws propagates the thrown
error (there is no surrounding `try`/`catch`). -/
def handleRequest (m : Registry) (request : FetchRequest) : Except String FetchResponse :=
  match getLookupFunction m request.identifier with
  | some lookup =>
    match lookup.fn request.identifier with
    | Except.error err => Except.error err
    | Except.ok (some d) => Except.ok { status := StatusCode.OK, data := d }
    | Except.ok none => Except.ok { status := StatusCode.NOT_FOUND, data := [] }
  | none =>
    Except.ok
      { status := StatusCode.ERROR,
        data := utf8Encode ("No lookup function registered for key: " ++ request.identifier) }

/-- Observable outcome of the inbound handler installed in `start()`:
whether a response went out on the stream, what error was logged by the
`.catch` clause, and whether `data.stream.close()` ran (it is in a
`.finally`, so it runs on every outcome). -/
structure InboundTrace where
  responseSent : Option FetchResponse
  loggedError : Option String
  streamClosed : Bool
  deriving Repr

/-- The wrapper installed in `start()` around `handleMessage`:
`handleMessage(data).catch(err => log.error(err)).finally(() =>
data.stream.close())`, applied to the outcome of `handleMessage`. -/
def runInboundHandler (outcome : Except String FetchResponse) : InboundTrace :=
  match outcome with
  | Except.ok r => { responseSent := some r, loggedError := none, streamClosed := true }
  | Except.error e => { responseSent := none, loggedError := some e, streamClosed := true }

/-- The response-interpretation step of `fetch` (lines 123-150): the
`Option FetchResponse` argument is the first length-prefixed frame read
from the stream, already decoded (`none` when the stream ended with no
frame). `Except.ok` carries `fetch`'s return value (`none` models the
`null` returned for `NOT_FOUND`, matching `result ?? null`). -/
def fetchHandleResponse : Option FetchResponse → Except FetchError (Option Bytes)
  | none => Except.error (FetchError.ERR_INVALID_MESSAGE "No data received")
  | some response =>
    if response.status == StatusCode.OK then
      Except.ok (some response.data)
    else if response.status == StatusCode.NOT_FOUND then
      Except.ok none
    else if response.status == StatusCode.ERROR then
      Except.error (FetchError.ERR_INVALID_PARAMETERS
        ("Error in fetch protocol response: " ++ utf8Decode response.data))
    else
      Except.error (FetchError.ERR_INVALID_MESSAGE "Unknown response status")

/-- Which abort signal an operation received: the caller's
`options.signal`, or the internal `TimeoutController`'s signal. -/
inductive Sig where
  | caller
  | timer
  deriving DecidableEq, Repr

/-- Observable trace of one `fetch` call: its result, whether a
`TimeoutController` was constructed (and with which timeout), whether its
`clear()` ran, whether a stream was opened and whether `stream.close()`
ran, and which signal was present in the options given to
`openConnection` and which signal was used for `newStream` and
`abortableDuplex`. -/
structure FetchTrace where
  result : Except FetchError (Option Bytes)
  timerCreated : Bool
  timerTimeout : Option Nat
  timerCleared : Bool
  streamOpened : Bool
  streamClosed : Bool
  connOpenSignal : Option Sig
  streamSignal : Option Sig

/-- The control flow of `fetch(peer, key, options)` (lines 91-160), with
the external suspension points abstracted by their outcomes:
`connResult` for `openConnection` (called first, with the caller's
original `options`), `streamResult` for `connection.newStream`, and
`pipeOutcome` for the request/response pipe (`Except.ok` carries the
first decoded frame, `none` when the stream ended with no data;
`Except.error` covers cancellation and framing/schema failures). A
`TimeoutController` with `init.timeout` is constructed only when
`options.signal == null`, after the connection is open; the `finally`
block clears it (when constructed) and closes the stream (when
opened). -/
def fetchModel (hasCallerSignal : Bool) (initTimeout : Nat)
    (connResult : Except FetchError Unit)
    (streamResult : Except FetchError Unit)
    (pipeOutcome : Except FetchError (Option FetchResponse)) : FetchTrace :=
  let callerSig : Option Sig := if hasCallerSignal then some Sig.caller else none
  match connResult with
  | Except.error e =>
    { result := Except.error e, timerCreated := false, timerTimeout := none,
      timerCleared := false, streamOpened := false, streamClosed := false,
      connOpenSignal := callerSig, streamSignal := none }
  | Except.ok _ =>
    let created := !hasCallerSignal
    let tt : Option Nat := if hasCallerSignal then none else some initTimeout
    let sig : Sig := if hasCallerSignal then Sig.caller else Sig.timer
    match streamResult with
    | Except.error e =>
      { result := Except.error e, timerCreated := created, timerTimeout := tt,
        timerCleared := created, streamOpened := false, streamClosed := false,
        connOpenSignal := callerSig, streamSignal := some sig }
    | Except.ok _ =>
      { result := (match pipeOutcome with
          | Except.error e => Except.error e
          | Except.ok frame => fetchHandleResponse frame),
        timerCreated := created, timerTimeout := tt, timerCleared := created,
        streamOpened := true, streamClosed := true,
        connOpenSignal := callerSig, streamSignal := some sig }

/-- The `FetchService` fields relevant to the lifecycle claims. -/
structure FetchServiceState where
  lookupFunctions : Registry
  started : Bool

/-- Models `start()`: `await registrar.handle(...)` then `this.started = true`.
The registrar call's outcome is the argument; a thrown error propagates
before the flag assignment, so the state handed back next to the error is
unchanged. -/
def start (st : FetchServiceState) (handleResult : Except String Unit) :
    Option String × FetchServiceState :=
  match handleResult with
  | Except.error e => (some e, st)
  | Except.ok _ => (none, { st with started := true })

/-- Models `stop()`: `await registrar.unhandle(...)` then `this.started = false`. -/
def stop (st : FetchServiceState) (unhandleResult : Except String Unit) :
    Option String × FetchServiceState :=
  match unhandleResult with
  | Except.error e => (some e, st)
  | Except.ok _ => (none, { st with started := false })

/-- Models `isStarted()`. -/
def isStarted (st : FetchServiceState) : Bool :=
  st.started

deriving instance DecidableEq for Except

theorem mapGet_cons_self (e : String × LookupFunction) (m : Registry) :
    mapGet (e :: m) e.1 = some e.2 := by
  simp [mapGet, List.find?]

theorem getLookupFunctionLoop_cons (key : String) (e : String × LookupFunction)
    (m : Registry) (h : strStartsWith key e.1 = false) :
    ∀ ks : List String, getLookupFunctionLoop (e :: m) key ks = getLookupFunctionLoop m key ks := by
  intro ks
  induction ks with
  | nil => rfl
  | cons k rest ih =>
    by_cases hk : strStartsWith key k = true
    · have hne : (e.1 == k) = false := by
        by_cases hb : (e.1 == k) = true
        · have : e.1 = k := eq_of_beq hb
          rw [this] at h
          rw [h] at hk
          exact absurd hk (by simp)
        · simpa using hb
      simp [getLookupFunctionLoop, hk, mapGet, List.find?, hne]
    · have hk' : strStartsWith key k = false := by simpa using hk
      simp [getLookupFunctionLoop, hk', ih]

theorem getLookupFunction_eq_resolveSpec (m : Registry) (key : String) :
    getLookupFunction m key = resolveSpec m key := by
  induction m with
  | nil => rfl
  | cons e m ih =>
    by_cases hs : strStartsWith key e.1 = true
    · simp [getLookupFunction, mapKeys, getLookupFunctionLoop, hs, resolveSpec, List.find?,
        mapGet_cons_self, mapGet, List.find?]
    · have hs' : strStartsWith key e.1 = false := by simpa using hs
      have := getLookupFunctionLoop_cons key e m hs' (mapKeys m)
      simp [getLookupFunction, mapKeys, getLookupFunctionLoop, hs', resolveSpec, List.find?] at this ⊢
      rw [this]
      simpa [getLookupFunction, mapKeys, resolveSpec] using ih

theorem mapGet_eq_none (m : Registry) (k : String) (h : mapHas m k = false) :
    mapGet m k = none := by
  induction m with
  | nil => rfl
  | cons e m ih =>
    simp [mapHas, List.any_cons] at h
    simp [mapGet, List.find?, show (e.1 == k) = false by simpa using h.1]
    have := ih (by simp [mapHas]; exact h.2)
    simpa [mapGet] using this

theorem mapSet_append (m : Registry) (k : String) (f : LookupFunction)
    (h : mapHas m k = false) : mapSet m k f = m ++ [(k, f)] := by
  induction m with
  | nil => rfl
  | cons e m ih =>
    simp [mapHas, List.any_cons] at h
    simp [mapSet, show (e.1 == k) = false by simpa using h.1]
    exact ih (by simp [mapHas]; exact h.2)

theorem mapDelete_of_not_has (m : Registry) (k : String) (h : mapHas m k = false) :
    mapDelete m k = m := by
  induction m with
  | nil => rfl
  | cons e m ih =>
    simp [mapHas, List.any_cons] at h
    simp [mapDelete, show (e.1 == k) = false by simpa using h.1]
    exact ih (by simp [mapHas]; exact h.2)

theorem mapHas_cons (e : String × LookupFunction) (m : Registry) (x : String) :
    mapHas (e :: m) x = ((e.1 == x) || mapHas m x) := rfl

theorem mapDelete_cons (e : String × LookupFunction) (m : Registry) (k : String) :
    mapDelete (e :: m) k = if e.1 == k then m else e :: mapDelete m k := rfl

theorem nodupKeys_cons (e : String × LookupFunction) (m : Registry) :
    nodupKeys (e :: m) = (!(mapHas m e.1) && nodupKeys m) := rfl

theorem mapHas_mapDelete (m : Registry) (k x : String)
    (h : mapHas (mapDelete m k) x = true) : mapHas m x = true := by
  induction m with
  | nil => simpa [mapDelete] using h
  | cons e m ih =>
    rw [mapHas_cons]
    by_cases hk : (e.1 == k) = true
    · rw [mapDelete_cons, if_pos hk] at h
      rw [h, Bool.or_true]
    · rw [mapDelete_cons, if_neg hk, mapHas_cons] at h
      cases hex : (e.1 == x) with
      | true => rw [Bool.true_or]
      | false =>
        rw [hex, Bool.false_or] at h
        rw [Bool.false_or]
        exact ih h

theorem mapHas_mapDelete_self (m : Registry) (k : String) (h : nodupKeys m = true) :
    mapHas (mapDelete m k) k = false := by
  induction m with
  | nil => rfl
  | cons e m ih =>
    rw [nodupKeys_cons, Bool.and_eq_true] at h
    obtain ⟨h1, h2⟩ := h
    have h1f : mapHas m e.1 = false := by simpa using h1
    by_cases hk : (e.1 == k) = true
    · rw [mapDelete_cons, if_pos hk, ← eq_of_beq hk]
      exact h1f
    · rw [mapDelete_cons, if_neg hk, mapHas_cons,
        show (e.1 == k) = false by simpa using hk, Bool.false_or]
      exact ih h2

theorem nodupKeys_mapDelete (m : Registry) (k : String) (h : nodupKeys m = true) :
    nodupKeys (mapDelete m k) = true := by
  induction m with
  | nil => rfl
  | cons e m ih =>
    rw [nodupKeys_cons, Bool.and_eq_true] at h
    obtain ⟨h1, h2⟩ := h
    by_cases hk : (e.1 == k) = true
    · rw [mapDelete_cons, if_pos hk]
      exact h2
    · rw [mapDelete_cons, if_neg hk, nodupKeys_cons, Bool.and_eq_true]
      refine ⟨?_, ih h2⟩
      cases hcon : mapHas (mapDelete m k) e.1 with
      | false => rfl
      | true =>
        exfalso
        have hup := mapHas_mapDelete m k e.1 hcon
        rw [hup] at h1
        simp at h1

theorem mapHas_append_single (m : Registry) (k : String) (x : String × LookupFunction) :
    mapHas (m ++ [x]) k = (mapHas m k || (x.1 == k)) := by
  simp [mapHas, List.any_append, List.any_cons]

theorem nodupKeys_append_single (m : Registry) (k : String) (f : LookupFunction)
    (hnd : nodupKeys m = true) (h : mapHas m k = false) :
    nodupKeys (m ++ [(k, f)]) = true := by
  induction m with
  | nil => rfl
  | cons e m ih =>
    rw [nodupKeys_cons, Bool.and_eq_true] at hnd
    obtain ⟨hnd1, hnd2⟩ := hnd
    rw [mapHas_cons] at h
    have h1 : (e.1 == k) = false := by
      cases hx : (e.1 == k) with
      | false => rfl
      | true => rw [hx, Bool.true_or] at h; exact h
    have h2 : mapHas m k = false := by
      rw [h1, Bool.false_or] at h
      exact h
    rw [List.cons_append, nodupKeys_cons, Bool.and_eq_true]
    refine ⟨?_, ih hnd2 h2⟩
    rw [mapHas_append_single]
    have h3 : (k == e.1) = false := by
      cases hx : (k == e.1) with
      | false => rfl
      | true =>
        exfalso
        have hkk : k = e.1 := eq_of_beq hx
        rw [hkk] at h1
        simp at h1
    have h4 : mapHas m e.1 = false := by simpa using hnd1
    simp [h3, h4]

/-- Claim C1: `_getLookupFunction` scans the registered prefixes in
registration (insertion) order and returns the resolver stored at the
first prefix that is a character-wise prefix of the key (`startsWith`);
if no registered prefix is a prefix of the key it returns absent
(stated as the equality with `resolveSpec`, the spec's description of
`resolve`). In particular, with resolvers registered for "a" then "ab",
resolving "abc" returns the resolver registered for "a". -/
theorem getLookupFunction_first_match :
    (∀ (m : Registry) (key : String), getLookupFunction m key = resolveSpec m key)
    ∧ (∀ fa fab : LookupFunction,
        getLookupFunction
          (registerLookupFunction (registerLookupFunction [] "a" fa).2 "ab" fab).2 "abc"
          = some fa) := by
  constructor
  · exact getLookupFunction_eq_resolveSpec
  · intro fa fab
    rfl

/-- Claim C2 counterexample: at the concrete input `none` (no framed
response blob arrived before the stream ended), `fetch` fails with an
invalid-message error whose message is "No data received" — not
"no data received" as the claim's quoted literal has it. -/
theorem fetch_no_data_message_counterexample :
    fetchHandleResponse none =
      Except.error (FetchError.ERR_INVALID_MESSAGE "No data received")
    ∧ fetchHandleResponse none ≠
      Except.error (FetchError.ERR_INVALID_MESSAGE "no data received") :=
  ⟨rfl, by decide⟩

/-- Claim C2 (amended: the invalid-message error texts are capitalized as
in the code, "No data received" and "Unknown response status"): if no
framed response arrives before the stream ends, `fetch` fails with an
invalid-message error "No data received"; status `OK` returns the
response's data blob; status `NOT_FOUND` returns absent (`null`), not an
error; status `ERROR` fails with an invalid-parameters error embedding
the UTF-8 decoding of the response's data; any other status fails with
an invalid-message error "Unknown response status". -/
theorem fetch_response_status_handling :
    fetchHandleResponse none =
      Except.error (FetchError.ERR_INVALID_MESSAGE "No data received")
    ∧ ∀ r : FetchResponse,
      (r.status = StatusCode.OK → fetchHandleResponse (some r) = Except.ok (some r.data))
      ∧ (r.status = StatusCode.NOT_FOUND → fetchHandleResponse (some r) = Except.ok none)
      ∧ (r.status = StatusCode.ERROR →
          fetchHandleResponse (some r) =
            Except.error (FetchError.ERR_INVALID_PARAMETERS
              ("Error in fetch protocol response: " ++ utf8Decode r.data)))
      ∧ (r.status ≠ StatusCode.OK → r.status ≠ StatusCode.NOT_FOUND →
          r.status ≠ StatusCode.ERROR →
          fetchHandleResponse (some r) =
            Except.error (FetchError.ERR_INVALID_MESSAGE "Unknown response status")) := by
  refine ⟨rfl, fun r => ⟨?_, ?_, ?_, ?_⟩⟩
  · intro h
    simp [fetchHandleResponse, h]
  · intro h
    simp [fetchHandleResponse, h, StatusCode.OK, StatusCode.NOT_FOUND]
  · intro h
    simp [fetchHandleResponse, h, StatusCode.OK, StatusCode.NOT_FOUND, StatusCode.ERROR]
  · intro h0 h1 h2
    simp [fetchHandleResponse, StatusCode.OK, StatusCode.NOT_FOUND, StatusCode.ERROR] at h0 h1 h2 ⊢
    simp [h0, h1, h2]

/-- Claim C2 witness: the amended theorem applied at concrete responses
of each status (0 = OK, 1 = NOT_FOUND, 2 = ERROR, 7 = unrecognised). -/
theorem fetch_response_status_handling_witness :
    fetchHandleResponse (some { status := 0, data := [1, 2, 3] }) = Except.ok (some [1, 2, 3])
    ∧ fetchHandleResponse (some { status := 1, data := [] }) = Except.ok none
    ∧ fetchHandleResponse (some { status := 2, data := utf8Encode "boom" }) =
        Except.error (FetchError.ERR_INVALID_PARAMETERS
          ("Error in fetch protocol response: " ++ utf8Decode (utf8Encode "boom")))
    ∧ fetchHandleResponse (some { status := 7, data := [] }) =
        Except.error (FetchError.ERR_INVALID_MESSAGE "Unknown response status") :=
  ⟨((fetch_response_status_handling.2 { status := 0, data := [1, 2, 3] }).1 rfl),
   ((fetch_response_status_handling.2 { status := 1, data := [] }).2.1 rfl),
   ((fetch_response_status_handling.2 { status := 2, data := utf8Encode "boom" }).2.2.1 rfl),
   ((fetch_response_status_handling.2 { status := 7, data := [] }).2.2.2
      (by decide) (by decide) (by decide))⟩

/-- Claim C3: registering a prefix that is already registered fails with
a duplicate-key error and leaves the registry unchanged; registering a
fresh prefix appends the (prefix, resolver) pair and has no other effect;
hence the no-duplicate-keys invariant of the registry is preserved, and
after unregistering a prefix it can be registered again successfully. -/
theorem registerLookupFunction_exclusive :
    ∀ (m : Registry) (pre : String) (f : LookupFunction),
      (mapHas m pre = true →
        registerLookupFunction m pre f =
          (some (FetchError.ERR_KEY_ALREADY_EXISTS
            ("Fetch protocol handler for key prefix \x27" ++ pre ++ "\x27 already registered")),
           m))
      ∧ (mapHas m pre = false →
          registerLookupFunction m pre f = (none, m ++ [(pre, f)]))
      ∧ (nodupKeys m = true → nodupKeys (registerLookupFunction m pre f).2 = true)
      ∧ (∀ f2 : LookupFunction, nodupKeys m = true →
          (registerLookupFunction (unregisterLookupFunction m pre none) pre f2).1 = none) := by
  intro m pre f
  refine ⟨?_, ?_, ?_, ?_⟩
  · intro h
    simp [registerLookupFunction, h]
  · intro h
    simp [registerLookupFunction, h, mapSet_append m pre f h]
  · intro hnd
    by_cases h : mapHas m pre = true
    · simp [registerLookupFunction, h, hnd]
    · have h' : mapHas m pre = false := by simpa using h
      simp [registerLookupFunction, h', mapSet_append m pre f h']
      exact nodupKeys_append_single m pre f hnd h'
  · intro f2 hnd
    have h : mapHas (mapDelete m pre) pre = false := mapHas_mapDelete_self m pre hnd
    simp [unregisterLookupFunction, registerLookupFunction, h]

/-- Claim C3 witness: with resolver 1 registered under "p", registering
"p" again fails with the duplicate-key error and leaves the registry
unchanged; registering "p" in the empty registry stores the pair; and
after unregistering "p" it can be registered again. -/
theorem registerLookupFunction_exclusive_witness :
    registerLookupFunction [("p", ⟨1, fun _ => Except.ok none⟩)] "p" ⟨2, fun _ => Except.ok none⟩
      = (some (FetchError.ERR_KEY_ALREADY_EXISTS
          ("Fetch protocol handler for key prefix \x27" ++ "p" ++ "\x27 already registered")),
         [("p", ⟨1, fun _ => Except.ok none⟩)])
    ∧ registerLookupFunction [] "p" (⟨1, fun _ => Except.ok none⟩ : LookupFunction)
      = (none, [] ++ [("p", ⟨1, fun _ => Except.ok none⟩)])
    ∧ nodupKeys (registerLookupFunction [("p", ⟨1, fun _ => Except.ok none⟩)] "p"
        ⟨2, fun _ => Except.ok none⟩).2 = true
    ∧ (registerLookupFunction
        (unregisterLookupFunction [("p", ⟨1, fun _ => Except.ok none⟩)] "p" none) "p"
        ⟨2, fun _ => Except.ok none⟩).1 = none :=
  ⟨(registerLookupFunction_exclusive [("p", ⟨1, fun _ => Except.ok none⟩)] "p"
      ⟨2, fun _ => Except.ok none⟩).1 rfl,
   (registerLookupFunction_exclusive [] "p" ⟨1, fun _ => Except.ok none⟩).2.1 rfl,
   (registerLookupFunction_exclusive [("p", ⟨1, fun _ => Except.ok none⟩)] "p"
      ⟨2, fun _ => Except.ok none⟩).2.2.1 rfl,
   (registerLookupFunction_exclusive [("p", ⟨1, fun _ => Except.ok none⟩)] "p"
      ⟨5, fun _ => Except.ok none⟩).2.2.2 ⟨2, fun _ => Except.ok none⟩ rfl⟩

/-- Claim C4: unregistering with a supplied resolver that is not
reference-identical to the stored one is a no-op; unregistering with the
stored resolver, or with no resolver argument, removes the entry for the
prefix (so it is no longer present, under the map invariant);
unregistering an absent prefix is a no-op, not an error. -/
theorem unregisterLookupFunction_guarded :
    ∀ (m : Registry) (pre : String) (r : LookupFunction),
      ((∀ e, mapGet m pre = some e → e.ref ≠ r.ref) →
        unregisterLookupFunction m pre (some r) = m)
      ∧ (∀ e, mapGet m pre = some e → e.ref = r.ref →
          unregisterLookupFunction m pre (some r) = mapDelete m pre)
      ∧ (unregisterLookupFunction m pre none = mapDelete m pre)
      ∧ (nodupKeys m = true →
          mapHas (unregisterLookupFunction m pre none) pre = false)
      ∧ (mapHas m pre = false →
          unregisterLookupFunction m pre (some r) = m
          ∧ unregisterLookupFunction m pre none = m) := by
  intro m pre r
  refine ⟨?_, ?_, rfl, ?_, ?_⟩
  · intro h
    cases hg : mapGet m pre with
    | none => simp [unregisterLookupFunction, hg]
    | some e =>
      have hne : (e.ref == r.ref) = false := by
        cases hx : (e.ref == r.ref) with
        | false => rfl
        | true => exact absurd (eq_of_beq hx) (h e hg)
      simp [unregisterLookupFunction, hg, hne]
  · intro e hg heq
    simp [unregisterLookupFunction, hg, heq]
  · intro hnd
    exact mapHas_mapDelete_self m pre hnd
  · intro h
    have hg : mapGet m pre = none := mapGet_eq_none m pre h
    have hd : mapDelete m pre = m := mapDelete_of_not_has m pre h
    exact ⟨by simp [unregisterLookupFunction, hg], by simp [unregisterLookupFunction, hd]⟩

/-- Claim C4 witness: with resolver 1 stored under "p", unregistering
with the wrong resolver reference (2) leaves the registration intact;
unregistering with the stored reference, or with no resolver argument,
removes it; unregistering the absent prefix "q" is a no-op. -/
theorem unregisterLookupFunction_guarded_witness :
    unregisterLookupFunction [("p", ⟨1, fun _ => Except.ok none⟩)] "p"
        (some ⟨2, fun _ => Except.ok none⟩)
      = [("p", ⟨1, fun _ => Except.ok none⟩)]
    ∧ unregisterLookupFunction [("p", ⟨1, fun _ => Except.ok none⟩)] "p"
        (some ⟨1, fun _ => Except.ok (some [7])⟩)
      = mapDelete [("p", ⟨1, fun _ => Except.ok none⟩)] "p"
    ∧ mapHas (unregisterLookupFunction [("p", ⟨1, fun _ => Except.ok none⟩)] "p" none) "p" = false
    ∧ unregisterLookupFunction [("p", ⟨1, fun _ => Except.ok none⟩)] "q"
        (some ⟨3, fun _ => Except.ok none⟩)
      = [("p", ⟨1, fun _ => Except.ok none⟩)] :=
  ⟨(unregisterLookupFunction_guarded [("p", ⟨1, fun _ => Except.ok none⟩)] "p"
      ⟨2, fun _ => Except.ok none⟩).1
      (fun e he => by
        have h1 : (⟨1, fun _ => Except.ok none⟩ : LookupFunction) = e :=
          Option.some.inj
            ((rfl : mapGet [("p", ⟨1, fun _ => Except.ok none⟩)] "p"
                = some ⟨1, fun _ => Except.ok none⟩).symm.trans he)
        rw [← h1]
        decide),
   (unregisterLookupFunction_guarded [("p", ⟨1, fun _ => Except.ok none⟩)] "p"
      ⟨1, fun _ => Except.ok (some [7])⟩).2.1 ⟨1, fun _ => Except.ok none⟩ rfl rfl,
   (unregisterLookupFunction_guarded [("p", ⟨1, fun _ => Except.ok none⟩)] "p"
      ⟨9, fun _ => Except.ok none⟩).2.2.2.1 rfl,
   ((unregisterLookupFunction_guarded [("p", ⟨1, fun _ => Except.ok none⟩)] "q"
      ⟨3, fun _ => Except.ok none⟩).2.2.2.2 rfl).1⟩

/-- Claim C5: for every decoded inbound request, `handleMessage` builds
exactly one response: no matching resolver yields status `ERROR` with
data the UTF-8 encoding of "No lookup function registered for key: "
followed by the identifier; a matched resolver returning a value yields
status `OK` with that value as data; a matched resolver returning absent
yields status `NOT_FOUND` with an empty data blob. -/
theorem handleRequest_response_construction :
    ∀ (m : Registry) (req : FetchRequest),
      (getLookupFunction m req.identifier = none →
        handleRequest m req = Except.ok
          { status := StatusCode.ERROR,
            data := utf8Encode ("No lookup function registered for key: " ++ req.identifier) })
      ∧ (∀ (l : LookupFunction) (v : Bytes), getLookupFunction m req.identifier = some l →
          l.fn req.identifier = Except.ok (some v) →
          handleRequest m req = Except.ok { status := StatusCode.OK, data := v })
      ∧ (∀ l : LookupFunction, getLookupFunction m req.identifier = some l →
          l.fn req.identifier = Except.ok none →
          handleRequest m req = Except.ok { status := StatusCode.NOT_FOUND, data := [] }) := by
  intro m req
  refine ⟨?_, ?_, ?_⟩
  · intro h
    simp [handleRequest, h]
  · intro l v hl hf
    simp [handleRequest, hl, hf]
  · intro l hl hf
    simp [handleRequest, hl, hf]

/-- Claim C5 witness: the theorem applied to a registry holding a
resolver for prefix "user/" that returns `[1, 2, 3]` for key "user/42",
absent for "user/99", and to the unmatched key "other/1". -/
theorem handleRequest_response_construction_witness :
    handleRequest [("user/", ⟨1, fun k => Except.ok (if k == "user/42" then some [1, 2, 3] else none)⟩)]
        { identifier := "other/1" }
      = Except.ok
          { status := StatusCode.ERROR,
            data := utf8Encode ("No lookup function registered for key: " ++ "other/1") }
    ∧ handleRequest [("user/", ⟨1, fun k => Except.ok (if k == "user/42" then some [1, 2, 3] else none)⟩)]
        { identifier := "user/42" }
      = Except.ok { status := StatusCode.OK, data := [1, 2, 3] }
    ∧ handleRequest [("user/", ⟨1, fun k => Except.ok (if k == "user/42" then some [1, 2, 3] else none)⟩)]
        { identifier := "user/99" }
      = Except.ok { status := StatusCode.NOT_FOUND, data := [] } :=
  ⟨(handleRequest_response_construction
      [("user/", ⟨1, fun k => Except.ok (if k == "user/42" then some [1, 2, 3] else none)⟩)]
      { identifier := "other/1" }).1 rfl,
   (handleRequest_response_construction
      [("user/", ⟨1, fun k => Except.ok (if k == "user/42" then some [1, 2, 3] else none)⟩)]
      { identifier := "user/42" }).2.1
      ⟨1, fun k => Except.ok (if k == "user/42" then some [1, 2, 3] else none)⟩ [1, 2, 3] rfl rfl,
   (handleRequest_response_construction
      [("user/", ⟨1, fun k => Except.ok (if k == "user/42" then some [1, 2, 3] else none)⟩)]
      { identifier := "user/99" }).2.2
      ⟨1, fun k => Except.ok (if k == "user/42" then some [1, 2, 3] else none)⟩ rfl rfl⟩

/-- Claim C6: when the matched resolver throws, the failure propagates
out of `handleMessage` uncaught — in particular no `ERROR` response is
produced, asymmetric with the no-resolver-found case — and the wrapper
installed in `start()` still closes the stream on every outcome of
`handleMessage` (its `.finally` clause). -/
theorem resolver_failure_propagates :
    ∀ (m : Registry) (req : FetchRequest) (l : LookupFunction) (e : String),
      getLookupFunction m req.identifier = some l →
      l.fn req.identifier = Except.error e →
      handleRequest m req = Except.error e
      ∧ (runInboundHandler (handleRequest m req)).responseSent = none
      ∧ (runInboundHandler (handleRequest m req)).loggedError = some e
      ∧ ∀ o : Except String FetchResponse, (runInboundHandler o).streamClosed = true := by
  intro m req l e hl hf
  have hprop : handleRequest m req = Except.error e := by
    simp [handleRequest, hl, hf]
  refine ⟨hprop, ?_, ?_, ?_⟩
  · rw [hprop]
    rfl
  · rw [hprop]
    rfl
  · intro o
    cases o <;> rfl

/-- Claim C6 witness: the theorem applied to a registry holding a
resolver for prefix "p" that throws "resolver exploded" on every key. -/
theorem resolver_failure_propagates_witness :
    handleRequest [("p", ⟨1, fun _ => Except.error "resolver exploded"⟩)] { identifier := "p1" }
      = Except.error "resolver exploded"
    ∧ (runInboundHandler (handleRequest [("p", ⟨1, fun _ => Except.error "resolver exploded"⟩)]
        { identifier := "p1" })).responseSent = none
    ∧ (runInboundHandler (handleRequest [("p", ⟨1, fun _ => Except.error "resolver exploded"⟩)]
        { identifier := "p1" })).streamClosed = true :=
  ⟨(resolver_failure_propagates [("p", ⟨1, fun _ => Except.error "resolver exploded"⟩)]
      { identifier := "p1" } ⟨1, fun _ => Except.error "resolver exploded"⟩
      "resolver exploded" rfl rfl).1,
   (resolver_failure_propagates [("p", ⟨1, fun _ => Except.error "resolver exploded"⟩)]
      { identifier := "p1" } ⟨1, fun _ => Except.error "resolver exploded"⟩
      "resolver exploded" rfl rfl).2.1,
   (resolver_failure_propagates [("p", ⟨1, fun _ => Except.error "resolver exploded"⟩)]
      { identifier := "p1" } ⟨1, fun _ => Except.error "resolver exploded"⟩
      "resolver exploded" rfl rfl).2.2.2 (handleRequest
        [("p", ⟨1, fun _ => Except.error "resolver exploded"⟩)] { identifier := "p1" })⟩

/-- Claim C9: the lifecycle flag is flipped only after the registrar
operation succeeds: if `registrar.handle` throws inside `start()` the
`started` flag stays `false` (the whole state is unchanged); if
`registrar.unhandle` throws inside `stop()` the flag stays `true`; on
success `start` sets it and `stop` clears it. -/
theorem lifecycle_flag_after_registrar :
    ∀ (st : FetchServiceState) (e e2 : String),
      (st.started = false → (start st (Except.error e)).2.started = false)
      ∧ (st.started = true → (stop st (Except.error e2)).2.started = true)
      ∧ (start st (Except.error e)).2 = st
      ∧ (stop st (Except.error e2)).2 = st
      ∧ (start st (Except.ok ())).2.started = true
      ∧ (stop st (Except.ok ())).2.started = false := by
  intro st e e2
  exact ⟨fun h => h, fun h => h, rfl, rfl, rfl, rfl⟩

/-- Claim C9 witness: the theorem applied to a concrete stopped engine
whose `handle` call throws, and a concrete started engine whose
`unhandle` call throws. -/
theorem lifecycle_flag_after_registrar_witness :
    ({ lookupFunctions := [], started := false } : FetchServiceState).started = false
    ∧ (start { lookupFunctions := [], started := false }
        (Except.error "handle failed")).2.started = false
    ∧ ({ lookupFunctions := [], started := true } : FetchServiceState).started = true
    ∧ (stop { lookupFunctions := [], started := true }
        (Except.error "unhandle failed")).2.started = true :=
  ⟨rfl,
   (lifecycle_flag_after_registrar { lookupFunctions := [], started := false }
      "handle failed" "unhandle failed").1 rfl,
   rfl,
   (lifecycle_flag_after_registrar { lookupFunctions := [], started := true }
      "handle failed" "unhandle failed").2.1 rfl⟩

/-- Claim C7: on every exit path of `fetch` — value returned, absent
returned, any error thrown, or cancellation (all of which appear as
outcomes of the abstracted suspension points) — the internally created
`TimeoutController`, when one was created, is cleared, and the opened
stream, when one was opened, is closed. -/
theorem fetch_cleanup_on_every_path :
    ∀ (hs : Bool) (t : Nat) (cr sr : Except FetchError Unit)
      (po : Except FetchError (Option FetchResponse)),
      ((fetchModel hs t cr sr po).timerCreated = true →
        (fetchModel hs t cr sr po).timerCleared = true)
      ∧ ((fetchModel hs t cr sr po).streamOpened = true →
        (fetchModel hs t cr sr po).streamClosed = true) := by
  intro hs t cr sr po
  cases cr <;> cases sr <;> simp [fetchModel]

/-- Claim C7 witness: a run without a caller signal whose pipe is
aborted by the timeout still clears the timer and closes the stream. -/
theorem fetch_cleanup_on_every_path_witness :
    (fetchModel false 60000 (Except.ok ()) (Except.ok ())
      (Except.error (FetchError.ABORT_ERR "The operation was aborted"))).timerCreated = true
    ∧ (fetchModel false 60000 (Except.ok ()) (Except.ok ())
        (Except.error (FetchError.ABORT_ERR "The operation was aborted"))).timerCleared = true
    ∧ (fetchModel false 60000 (Except.ok ()) (Except.ok ())
        (Except.error (FetchError.ABORT_ERR "The operation was aborted"))).streamOpened = true
    ∧ (fetchModel false 60000 (Except.ok ()) (Except.ok ())
        (Except.error (FetchError.ABORT_ERR "The operation was aborted"))).streamClosed = true :=
  ⟨rfl,
   (fetch_cleanup_on_every_path false 60000 (Except.ok ()) (Except.ok ())
      (Except.error (FetchError.ABORT_ERR "The operation was aborted"))).1 rfl,
   rfl,
   (fetch_cleanup_on_every_path false 60000 (Except.ok ()) (Except.ok ())
      (Except.error (FetchError.ABORT_ERR "The operation was aborted"))).2 rfl⟩

/-- Claim C8: a caller-supplied signal fully replaces the internal
timeout: with `options.signal` present no `TimeoutController` is created
and the caller's signal alone is used for stream opening and stream I/O;
with it absent a timer-based signal with the configured timeout is
created and used instead — the signal threaded through is always exactly
one of the two, never a combination. -/
theorem fetch_signal_replaces_timeout :
    ∀ (t : Nat) (cr sr : Except FetchError Unit)
      (po : Except FetchError (Option FetchResponse)),
      ((fetchModel true t cr sr po).timerCreated = false
        ∧ (fetchModel true t cr sr po).timerTimeout = none
        ∧ ∀ s, (fetchModel true t cr sr po).streamSignal = some s → s = Sig.caller)
      ∧ (cr = Except.ok () →
          (fetchModel false t cr sr po).timerCreated = true
          ∧ (fetchModel false t cr sr po).timerTimeout = some t
          ∧ (fetchModel false t cr sr po).streamSignal = some Sig.timer) := by
  intro t cr sr po
  constructor
  · cases cr <;> cases sr <;> simp [fetchModel]
  · intro h
    subst h
    cases sr <;> simp [fetchModel]

/-- Claim C8 witness: with a caller signal no timer exists and the
stream uses the caller's signal; without one, a timer with the
configured timeout 60000 exists and the stream uses the timer signal. -/
theorem fetch_signal_replaces_timeout_witness :
    (fetchModel true 60000 (Except.ok ()) (Except.ok ()) (Except.ok none)).timerCreated = false
    ∧ (fetchModel true 60000 (Except.ok ()) (Except.ok ())
        (Except.ok none)).streamSignal = some Sig.caller
    ∧ (fetchModel false 60000 (Except.ok ()) (Except.ok ()) (Except.ok none)).timerCreated = true
    ∧ (fetchModel false 60000 (Except.ok ()) (Except.ok ())
        (Except.ok none)).timerTimeout = some 60000
    ∧ (fetchModel false 60000 (Except.ok ()) (Except.ok ())
        (Except.ok none)).streamSignal = some Sig.timer :=
  ⟨(fetch_signal_replaces_timeout 60000 (Except.ok ()) (Except.ok ()) (Except.ok none)).1.1,
   rfl,
   ((fetch_signal_replaces_timeout 60000 (Except.ok ()) (Except.ok ()) (Except.ok none)).2 rfl).1,
   ((fetch_signal_replaces_timeout 60000 (Except.ok ()) (Except.ok ()) (Except.ok none)).2 rfl).2.1,
   ((fetch_signal_replaces_timeout 60000 (Except.ok ()) (Except.ok ()) (Except.ok none)).2 rfl).2.2⟩

/-- Claim C10: `openConnection` is called with the caller's original
options — before any internal timeout signal exists, so the options hold
the caller's signal when supplied and no signal otherwise, never the
timer's — and when the connection attempt itself fails no timer was ever
created; the internal timer signal (created only without a caller
signal) is applied to `newStream` and the subsequent stream I/O. -/
theorem openConnection_unbounded_by_timeout :
    ∀ (hs : Bool) (t : Nat) (cr sr : Except FetchError Unit)
      (po : Except FetchError (Option FetchResponse)),
      (fetchModel hs t cr sr po).connOpenSignal = (if hs then some Sig.caller else none)
      ∧ (fetchModel hs t cr sr po).connOpenSignal ≠ some Sig.timer
      ∧ (∀ e : FetchError, cr = Except.error e → (fetchModel hs t cr sr po).timerCreated = false)
      ∧ (hs = false → cr = Except.ok () →
          (fetchModel hs t cr sr po).streamSignal = some Sig.timer) := by
  intro hs t cr sr po
  refine ⟨?_, ?_, ?_, ?_⟩
  · cases cr <;> cases sr <;> cases hs <;> simp [fetchModel]
  · cases cr <;> cases sr <;> cases hs <;> simp [fetchModel]
  · intro e h
    subst h
    cases hs <;> simp [fetchModel]
  · intro h1 h2
    subst h1
    subst h2
    cases sr <;> simp [fetchModel]

/-- Claim C10 witness: a failed connection attempt without a caller
signal shows no-signal options at `openConnection` and no timer created;
a successful connection without a caller signal uses the timer signal
for the stream. -/
theorem openConnection_unbounded_by_timeout_witness :
    (fetchModel false 60000 (Except.error (FetchError.CONNECTION_FAILED "dial failure"))
      (Except.ok ()) (Except.ok none)).connOpenSignal = none
    ∧ (fetchModel false 60000 (Except.error (FetchError.CONNECTION_FAILED "dial failure"))
        (Except.ok ()) (Except.ok none)).timerCreated = false
    ∧ (fetchModel false 60000 (Except.ok ()) (Except.ok ())
        (Except.ok none)).streamSignal = some Sig.timer :=
  ⟨(openConnection_unbounded_by_timeout false 60000
      (Except.error (FetchError.CONNECTION_FAILED "dial failure"))
      (Except.ok ()) (Except.ok none)).1,
   (openConnection_unbounded_by_timeout false 60000
      (Except.error (FetchError.CONNECTION_FAILED "dial failure"))
      (Except.ok ()) (Except.ok none)).2.2.1
      (FetchError.CONNECTION_FAILED "dial failure") rfl,
   (openConnection_unbounded_by_timeout false 60000 (Except.ok ())
      (Except.ok ()) (Except.ok none)).2.2.2 rfl rfl⟩
